import Mathlib

/-!
# Shallow embedding of the CIFS file-system engine (src/cifs)

This file embeds, in Lean, the parts of `src/cifs/src/cifs.c` and
`src/cifs/inc/cifs.h` needed to settle the frozen claims about the
engine: the volume geometry constants, the bit allocator
(`cifsFindFreeBlock`, `cifsSetBit`, `cifsClearBit`, `cifsFlipBit`), the
registry hash function (`hash`), the bitvector produced by
`cifsCreateFileSystem`, the superblock identifier-counter dynamics of
`cifsCreateFile`, and the (unimplemented) bodies of `cifsWriteFile`,
`cifsMountFileSystem`/`traverseDisk` and the error-checking part of
`cifsCreateFile`.

Modelling conventions:
* a byte (`unsigned char`) is a `Nat` (< 256 where it matters, stated as
  a hypothesis); a bitvector is a `List Nat` of bytes;
* `CIFS_INDEX_TYPE` (`unsigned short`) values are `Nat`s;
* the 64-bit counter `cifsNextUniqueIdentifier` is a `Nat` reduced
  `% 2 ^ 64` at the increment;
* C functions that would read or write out of the bounds of a buffer are
  modelled with `Option` (`none` = the C scan runs past the end of the
  buffer) or with `List.set`/`List.getD`, which leave the list unchanged
  / return a default out of range.
-/

namespace CIFS

/-- `#define CIFS_BLOCK_SIZE 256` (cifs.h:46). -/
def CIFS_BLOCK_SIZE : Nat := 256

/-- `#define CIFS_NUMBER_OF_BLOCKS 65535` (cifs.h:47). -/
def CIFS_NUMBER_OF_BLOCKS : Nat := 65535

/-- `#define CIFS_REGISTRY_SIZE 65537` (cifs.h:71). -/
def CIFS_REGISTRY_SIZE : Nat := 65537

/-- `#define CIFS_INDEX_SIZE 127` (cifs.h:50). -/
def CIFS_INDEX_SIZE : Nat := 127

/-- `#define CIFS_INVALID_INDEX CIFS_NUMBER_OF_BLOCKS` (cifs.h:93). -/
def CIFS_INVALID_INDEX : Nat := CIFS_NUMBER_OF_BLOCKS

/-- `#define CIFS_SUPERBLOCK_INDEX CIFS_NUMBER_OF_BLOCKS/8/CIFS_BLOCK_SIZE`
(cifs.h:110): C integer division, so `65535 / 8 / 256 = 31`. -/
def CIFS_SUPERBLOCK_INDEX : Nat := CIFS_NUMBER_OF_BLOCKS / 8 / CIFS_BLOCK_SIZE

/-- `cifsRootNodeIndex = CIFS_SUPERBLOCK_INDEX + 1` as assigned by
`cifsCreateFileSystem` (cifs.c:135). -/
def cifsRootNodeIndex : Nat := CIFS_SUPERBLOCK_INDEX + 1

/-- The `CIFS_ERROR` enumeration of cifs.h:289-302, in declaration order. -/
inductive CIFS_ERROR where
  | CIFS_NO_ERROR
  | CIFS_ALLOC_ERROR
  | CIFS_DUPLICATE_ERROR
  | CIFS_NOT_FOUND_ERROR
  | CIFS_NOT_EMPTY_ERROR
  | CIFS_ACCESS_ERROR
  | CIFS_WRITE_ERROR
  | CIFS_READ_ERROR
  | CIFS_IN_USE_ERROR
  | CIFS_OPEN_ERROR
  | CIFS_SYSTEM_ERROR
  deriving DecidableEq, Repr

/-! ## Bit allocator (cifs.c:631-682) -/

/-- `cifsSetBit` (cifs.c:664-672):
`bitvector[bitIndex / 8] |= 0x80 >> (bitIndex % 8)`.
Only the byte at offset `bitIndex / 8` is assigned. -/
def cifsSetBit (bitvector : List Nat) (bitIndex : Nat) : List Nat :=
  bitvector.set (bitIndex / 8)
    (bitvector.getD (bitIndex / 8) 0 ||| (128 >>> (bitIndex % 8)))

/-- `cifsClearBit` (cifs.c:674-682):
`bitvector[bitIndex / 8] &= ~(0x80 >> (bitIndex % 8))`; on an
`unsigned char` the complement of the one-bit mask is `0xFF ^ mask`. -/
def cifsClearBit (bitvector : List Nat) (bitIndex : Nat) : List Nat :=
  bitvector.set (bitIndex / 8)
    (bitvector.getD (bitIndex / 8) 0 &&& (255 ^^^ (128 >>> (bitIndex % 8))))

/-- `cifsFlipBit` (cifs.c:654-662):
`bitvector[bitIndex / 8] ^= 0x80 >> (bitIndex % 8)`. -/
def cifsFlipBit (bitvector : List Nat) (bitIndex : Nat) : List Nat :=
  bitvector.set (bitIndex / 8)
    (bitvector.getD (bitIndex / 8) 0 ^^^ (128 >>> (bitIndex % 8)))

/-- Reading bit `i` of a bitvector: bit `i % 8` of byte `i / 8`, counted
most-significant first (the mask `0x80 >> (i % 8)` selects binary digit
`7 - i % 8`). -/
def bitGet (bitvector : List Nat) (i : Nat) : Bool :=
  Nat.testBit (bitvector.getD (i / 8) 0) (7 - i % 8)

/-- The byte scan of `cifsFindFreeBlock` (cifs.c:634-636):
`while (bitvector[i] == 0xFF) i += 1;` — returns the index and value of
the first byte different from `0xFF`, or `none` if every byte of the
buffer is `0xFF`, in which case the C loop keeps reading past the end of
the buffer (it has no bound check). -/
def findFirstNonFF : List Nat → Option (Nat × Nat)
  | [] => none
  | b :: rest =>
    if b = 255 then (findFirstNonFF rest).map (fun p => (p.1 + 1, p.2))
    else some (0, b)

/-- The bit scan of `cifsFindFreeBlock` (cifs.c:638-644): starting from
`mask = 0x80`, `while (b & mask) { mask >>= 1; ++j; }`. The mask becomes
`0` after 8 shifts, so the loop runs at most 8 times; `go` counts the
remaining mask shifts as fuel. -/
def firstZeroBit (b : Nat) : Nat :=
  go b 8 0
where
  go : Nat → Nat → Nat → Nat
    | _, 0, j => j
    | b, fuel + 1, j => if Nat.testBit b (7 - j) then go b fuel (j + 1) else j

/-- `cifsFindFreeBlock` (cifs.c:631-647): scans for the first byte that
is not `0xFF`, then for the first `0` bit of that byte
(most-significant first), and returns `i * 8 + j`. `none` models the
case where every byte is `0xFF`: the C `while` loop then reads past the
end of the bitvector buffer — the `CIFS_INDEX_TYPE` return
type has no error encoding and no `CIFS_ALLOC_ERROR` path exists. -/
def cifsFindFreeBlock (bitvector : List Nat) : Option Nat :=
  (findFirstNonFF bitvector).map (fun p => p.1 * 8 + firstZeroBit p.2)

/-! ## Registry hash (cifs.c:614-624) -/

/-- One step of the djb2-xor hash loop (cifs.c:620-621):
`hash = ((hash << 5) + hash) ^ c`, on a 64-bit `unsigned long`. -/
def hashStep (h c : Nat) : Nat :=
  (((h <<< 5) + h) % 2 ^ 64) ^^^ c

/-- `hash` (cifs.c:614-624): folds `hashStep` over the bytes of the
string (the C loop stops at the terminating NUL; the list holds the
bytes before it), starting from `5381`, and reduces the result
`% CIFS_REGISTRY_SIZE`. -/
def hash (str : List Nat) : Nat :=
  (str.foldl hashStep 5381) % CIFS_REGISTRY_SIZE

/-! ## cifsCreateFileSystem: the in-memory bitvector (cifs.c:117-187) -/

/-- `memset(bitvector, 0xFF, n)` — the first `n` bytes become `0xFF`,
the rest are unchanged (cifs.c:123). -/
def memsetFF : List Nat → Nat → List Nat
  | bv, 0 => bv
  | [], _ + 1 => []
  | _ :: rest, n + 1 => 255 :: memsetFF rest n

/-- The in-memory bitvector at the end of a successful
`cifsCreateFileSystem` (cifs.c:117-187):
* `calloc(CIFS_NUMBER_OF_BLOCKS / 8, 1)` — 8191 zero bytes (line 120);
* `memset(bitvector, 0xFF, CIFS_SUPERBLOCK_INDEX / 8)` — the first
  `31 / 8 = 3` bytes, i.e. bits 0-23 (line 123);
* `cifsSetBit(bitvector, CIFS_SUPERBLOCK_INDEX)` — bit 31 (line 138);
* `cifsSetBit(bitvector, cifsRootNodeIndex)` — bit 32 (line 170);
* `cifsSetBit(bitvector, cifsRootNodeIndex + 1)` — bit 33 (line 173).
No other bit of the bitvector is touched before the function returns. -/
def createFS_bitvector : List Nat :=
  cifsSetBit
    (cifsSetBit
      (cifsSetBit
        (memsetFF (List.replicate (CIFS_NUMBER_OF_BLOCKS / 8) 0)
          (CIFS_SUPERBLOCK_INDEX / 8))
        CIFS_SUPERBLOCK_INDEX)
      cifsRootNodeIndex)
    (cifsRootNodeIndex + 1)

/-! ## Superblock identifier counter (cifs.c:132-176, 330-355) -/

/-- The two copies of the superblock field `cifsNextUniqueIdentifier`: the
in-memory copy held in `cifsContext->superblock` and the copy stored in
block `CIFS_SUPERBLOCK_INDEX` of the volume. -/
structure SBState where
  memCounter : Nat
  diskCounter : Nat
  deriving DecidableEq, Repr

/-- Identifier assigned to the root folder by `cifsCreateFileSystem`
(cifs.c:146): the initial counter value `0`, read before the
post-increment. -/
def rootIdentifier : Nat := 0

/-- Counter state at the end of `cifsCreateFileSystem`: the counter
starts at `CIFS_INITIAL_VALUE_OF_THE_UNIQUE_FILE_IDENTIFIER = 0`
(cifs.c:132), is post-incremented when the root folder takes identifier
`0` (cifs.c:146), and the superblock is then written to the volume with
the incremented value (cifs.c:176). -/
def createFS_sbState : SBState :=
  { memCounter := (rootIdentifier + 1) % 2 ^ 64
  , diskCounter := (rootIdentifier + 1) % 2 ^ 64 }

/-- `cifsMountFileSystem` loads the in-memory superblock from the volume
(cifs.c:243), so the two counter copies agree after a mount. -/
def mountSBState (s : SBState) : SBState :=
  { memCounter := s.diskCounter, diskCounter := s.diskCounter }

/-- The identifier handed out by one `cifsCreateFile` call and the
counter state it leaves behind (cifs.c:330-355):
* line 333 assigns
  `identifier = cifsContext->superblock->cifsNextUniqueIdentifier++` —
  the new descriptor takes the in-memory counter, which is then
  incremented in memory only (the superblock block on the volume is
  never written by this function);
* line 353 then executes
  `cifsContext->superblock = (CIFS_SUPERBLOCK_TYPE*) cifsReadBlock(CIFS_SUPERBLOCK_INDEX)`,
  replacing the whole in-memory superblock — increment included — with
  the copy still stored on the volume. -/
def cifsCreateFile_idStep (s : SBState) : Nat × SBState :=
  let identifier := s.memCounter
  let afterIncrement : SBState :=
    { memCounter := (s.memCounter + 1) % 2 ^ 64, diskCounter := s.diskCounter }
  let afterReload : SBState :=
    { memCounter := afterIncrement.diskCounter
    , diskCounter := afterIncrement.diskCounter }
  (identifier, afterReload)

/-! ## Unimplemented operation bodies -/

/-- `cifsWriteFile` (cifs.c:504-509): the body is the single line
`// TODO: implement` followed by `return CIFS_NO_ERROR;` — no free-space
computation, no block allocation, no error path. The parameters mirror
`(CIFS_FILE_HANDLE_TYPE fileHandle, char* writeBuffer)` and are unused,
exactly as in the source. -/
def cifsWriteFile (_fileHandle : Int) (_writeBuffer : List Nat) : CIFS_ERROR :=
  CIFS_ERROR.CIFS_NO_ERROR

/-- A registry entry (`CIFS_REGISTRY_ENTRY_TYPE`, cifs.h:198-207),
reduced to the fields the mount claim speaks about: the copied
descriptor identifier and the parent file handle. -/
structure RegistryEntryModel where
  identifier : Nat
  parentFileHandle : Int
  deriving DecidableEq, Repr

/-- `traverseDisk` (cifs.c:716-718): the body is `// TODO: implement` —
the function returns without inserting anything, so the registry it was
meant to populate is returned unchanged. The extra `registry` parameter
makes the (absent) effect on the registry explicit. -/
def traverseDisk (_index : List Nat) (_size : Nat) (_path : List Nat)
    (registry : List RegistryEntryModel) : List RegistryEntryModel :=
  registry

/-- The in-memory context assembled by `cifsMountFileSystem`
(cifs.c:229-256), reduced to the fields the mount claim speaks about:
the superblock block read from the volume and the list of registry
entries inserted during the mount. -/
structure MountContextModel where
  superblockBlock : List Nat
  registryEntries : List RegistryEntryModel

/-- `cifsMountFileSystem` (cifs.c:229-256): reads the superblock block
from the volume (line 243) and allocates the bitvector buffer, but both
the bitvector copy (line 248) and the registry-populating traversal of
the volume (line 253) are `// TODO` comments with no code, and
`cifsContext->registry` is never assigned: no registry entry is ever
inserted, whatever the volume holds. `volume` maps a block number to the
bytes of that block. -/
def cifsMountFileSystem (volume : Nat → List Nat) : MountContextModel :=
  { superblockBlock := volume CIFS_SUPERBLOCK_INDEX
  , registryEntries := [] }

/-- A process control block (`CIFS_PROCESS_CONTROL_BLOCK_TYPE`,
cifs.h:243-253), reduced to the fields the create claim speaks about:
the process id and the identifiers of its open files. -/
structure PCBModel where
  pid : Nat
  openFiles : List Nat
  deriving DecidableEq, Repr

/-- The error result of `cifsCreateFile` (cifs.c:327-355) as a function
of the process list of the caller: the body never consults
`cifsContext->processList` (no open-folder check of any kind appears
between lines 327 and 355) and the only `return` statement is
`return CIFS_NO_ERROR;` at line 354. -/
def cifsCreateFile_result (_processList : List PCBModel) : CIFS_ERROR :=
  CIFS_ERROR.CIFS_NO_ERROR

/-! ## Helper lemmas -/

theorem getD_set_ne (l : List Nat) (i j v : Nat) (h : j ≠ i) :
    (l.set i v).getD j 0 = l.getD j 0 := by
  simp [List.getD_eq_getElem?_getD, List.getElem?_set_ne (Ne.symm h)]

theorem getD_set_self (l : List Nat) (i v : Nat) (h : i < l.length) :
    (l.set i v).getD i 0 = v := by
  simp [List.getD_eq_getElem?_getD, List.getElem?_set_self h]

theorem findFirstNonFF_replicate_ff :
    ∀ n, findFirstNonFF (List.replicate n 255) = none
  | 0 => rfl
  | n + 1 => by
    simp [List.replicate_succ, findFirstNonFF, findFirstNonFF_replicate_ff n]

theorem findFirstNonFF_eq (bv : List Nat) (i : Nat) (hi : i < bv.length)
    (hx : bv.getD i 0 ≠ 255) (hmin : ∀ k, k < i → bv.getD k 0 = 255) :
    findFirstNonFF bv = some (i, bv.getD i 0) := by
  induction bv generalizing i with
  | nil => simp at hi
  | cons b rest ih =>
    by_cases hb : b = 255
    · subst hb
      cases i with
      | zero => simp [List.getD_cons_zero] at hx
      | succ m =>
        have hrest := ih m (by simpa using hi)
          (by simpa [List.getD_cons_succ] using hx)
          (fun k hk => by
            have := hmin (k + 1) (by omega)
            simpa [List.getD_cons_succ] using this)
        simp [findFirstNonFF, hrest, List.getD_cons_succ]
    · have hi0 : i = 0 := by
        by_contra hne
        have h0 := hmin 0 (Nat.pos_of_ne_zero hne)
        simp [List.getD_cons_zero] at h0
        exact hb h0
      subst hi0
      simp [findFirstNonFF, hb, List.getD_cons_zero]

theorem findFirstNonFF_some (bv : List Nat) (i v : Nat)
    (h : findFirstNonFF bv = some (i, v)) :
    i < bv.length ∧ v = bv.getD i 0 ∧ v ≠ 255 ∧
      ∀ k, k < i → bv.getD k 0 = 255 := by
  induction bv generalizing i with
  | nil => simp [findFirstNonFF] at h
  | cons b rest ih =>
    by_cases hb : b = 255
    · subst hb
      simp only [findFirstNonFF, eq_self_iff_true, if_true,
        Option.map_eq_some'] at h
      obtain ⟨⟨m, w⟩, hrest, heq⟩ := h
      cases heq
      obtain ⟨hlen, hval, hne, hmin⟩ := ih m hrest
      refine ⟨by simpa using hlen, by simpa [List.getD_cons_succ] using hval,
        hne, fun k hk => ?_⟩
      cases k with
      | zero => simp [List.getD_cons_zero]
      | succ k => simpa [List.getD_cons_succ] using hmin k (by omega)
    · simp only [findFirstNonFF, if_neg hb] at h
      injection h with h1
      cases h1
      exact ⟨by simp, by simp [List.getD_cons_zero], hb, fun k hk => by omega⟩

set_option maxRecDepth 4000 in
theorem firstZeroBit_spec :
    ∀ b < 256, b ≠ 255 →
      firstZeroBit b < 8 ∧ Nat.testBit b (7 - firstZeroBit b) = false ∧
        ∀ k < firstZeroBit b, Nat.testBit b (7 - k) = true := by decide

set_option maxRecDepth 4000 in
theorem lor_mask_lt : ∀ a < 256, ∀ s < 8, a ||| (128 >>> s) < 256 := by
  decide

theorem testBit_mask_self : ∀ s < 8, Nat.testBit (128 >>> s) (7 - s) = true := by
  decide

theorem getD_mem_of_lt (l : List Nat) (n : Nat) (h : n < l.length) :
    l.getD n 0 ∈ l := by
  rw [List.getD_eq_getElem l 0 h]
  exact List.getElem_mem h

/-! ## Claim theorems -/

/-- C1. The claim states that `cifsWriteFile` returns `CIFS_ALLOC_ERROR`
when the new content needs more blocks than are free. In the code the
body of `cifsWriteFile` is an unimplemented TODO that returns
`CIFS_NO_ERROR` for every handle and buffer — here evaluated at handle 0
with a buffer larger than the whole volume, where no allocation could
ever succeed — contradicting the documented `CIFS_ALLOC_ERROR`
behaviour (cifs.c:483, 504-509). -/
theorem c1_writeFile_stub_no_alloc_error :
    cifsWriteFile 0
        (List.replicate (CIFS_NUMBER_OF_BLOCKS * CIFS_BLOCK_SIZE) 97) =
      CIFS_ERROR.CIFS_NO_ERROR ∧
    CIFS_ERROR.CIFS_NO_ERROR ≠ CIFS_ERROR.CIFS_ALLOC_ERROR :=
  ⟨rfl, by decide⟩

/-- C2. The claim states that after `cifsCreateFileSystem` every block of
the fixed metadata region — in particular every block holding the
occupancy bitvector, i.e. blocks `[0, CIFS_SUPERBLOCK_INDEX)` — has its
bit set. In the code the `memset` at cifs.c:123 covers only
`CIFS_SUPERBLOCK_INDEX / 8 = 3` bytes (bits 0-23), so bitvector-region
block 24 (and likewise 25-30) is left marked free: the claimed invariant
fails at block 24. -/
theorem c2_createFS_bitvector_region_bit_clear :
    bitGet createFS_bitvector 24 = false ∧ 24 < CIFS_SUPERBLOCK_INDEX := by
  constructor
  · decide
  · decide

/-- C3. The claim states that on an all-`0xFF` bitvector
`cifsFindFreeBlock` fails with the `AllocError` result. The code has no
error path at all: its `CIFS_INDEX_TYPE` return type cannot carry a
`CIFS_ERROR`, and on an all-set vector (here the actual in-memory
bitvector size, `CIFS_NUMBER_OF_BLOCKS / 8 = 8191` bytes) the byte scan
`while (bitvector[i] == 0xFF) i += 1;` runs past the end of the buffer —
modelled by the `none` result. -/
theorem c3_findFreeBlock_all_set_runs_off_end :
    cifsFindFreeBlock (List.replicate (CIFS_NUMBER_OF_BLOCKS / 8) 255) =
      none := by
  simp [cifsFindFreeBlock, findFirstNonFF_replicate_ff]

/-- C4. For every bitvector of bytes with at least one byte other than
`0xFF`, `cifsFindFreeBlock` returns `8 * i + j` where `i` is the least
byte index with `bitvector[i] != 0xFF` and `j` is the least bit position
of that byte holding `0`, counting most-significant first (bit position
`j` is binary digit `7 - j`). -/
theorem c4_findFreeBlock_first_zero (bv : List Nat) (i : Nat)
    (hi : i < bv.length) (hb : bv.getD i 0 < 256) (hx : bv.getD i 0 ≠ 255)
    (hmin : ∀ k, k < i → bv.getD k 0 = 255) :
    ∃ j, j < 8 ∧ cifsFindFreeBlock bv = some (8 * i + j) ∧
      Nat.testBit (bv.getD i 0) (7 - j) = false ∧
      ∀ k, k < j → Nat.testBit (bv.getD i 0) (7 - k) = true := by
  have hf := findFirstNonFF_eq bv i hi hx hmin
  obtain ⟨hlt, hbit, hleast⟩ := firstZeroBit_spec (bv.getD i 0) hb hx
  refine ⟨firstZeroBit (bv.getD i 0), hlt, ?_, hbit, hleast⟩
  simp only [cifsFindFreeBlock, hf, Option.map_some']
  rw [Nat.mul_comm]

/-- Witness for C4 at the concrete bitvector `[0xFF, 0xE0]`: the first
non-`0xFF` byte is at index 1, and `0xE0 = 0b11100000` has its first
zero bit at position 3, so the returned block index is `8 * 1 + 3`. -/
theorem c4_witness :
    ∃ j, j < 8 ∧ cifsFindFreeBlock [255, 224] = some (8 * 1 + j) ∧
      Nat.testBit (List.getD [255, 224] 1 0) (7 - j) = false ∧
      ∀ k, k < j → Nat.testBit (List.getD [255, 224] 1 0) (7 - k) = true :=
  c4_findFreeBlock_first_zero [255, 224] 1 (by decide) (by decide)
    (by decide) (by decide)

/-- C5. For every bitvector of bytes and every in-range bit index `i`,
if `cifsFindFreeBlock` still finds a free block after
`cifsSetBit bitvector i`, the block it returns is never `i`: the set bit
is not discoverable as free. -/
theorem c5_setBit_findFreeBlock_ne (bv : List Nat) (i r : Nat)
    (hrange : i / 8 < bv.length) (hbytes : ∀ b ∈ bv, b < 256)
    (hfind : cifsFindFreeBlock (cifsSetBit bv i) = some r) :
    r ≠ i := by
  intro hri
  rw [hri] at hfind
  simp only [cifsFindFreeBlock, Option.map_eq_some'] at hfind
  obtain ⟨⟨bi, b⟩, hff, heq⟩ := hfind
  have hi_eq : bi * 8 + firstZeroBit b = i := heq
  obtain ⟨hbl, hbv, hbne, _⟩ := findFirstNonFF_some _ _ _ hff
  have hlen : (cifsSetBit bv i).length = bv.length := by
    simp [cifsSetBit]
  have hold : bv.getD (i / 8) 0 < 256 :=
    hbytes _ (getD_mem_of_lt bv (i / 8) hrange)
  have hself : (cifsSetBit bv i).getD (i / 8) 0 =
      bv.getD (i / 8) 0 ||| (128 >>> (i % 8)) :=
    getD_set_self bv (i / 8) _ hrange
  have hblt : b < 256 := by
    by_cases hbi : bi = i / 8
    · subst hbi
      rw [hbv, hself]
      exact lor_mask_lt _ hold _ (Nat.mod_lt i (by omega))
    · rw [hbv]
      simp only [cifsSetBit]
      rw [getD_set_ne bv (i / 8) bi _ hbi]
      exact hbytes _ (getD_mem_of_lt bv bi (hlen ▸ hbl))
  obtain ⟨hjlt, hjbit, _⟩ := firstZeroBit_spec b hblt hbne
  have hbi_eq : bi = i / 8 := by omega
  have hj_eq : firstZeroBit b = i % 8 := by omega
  rw [hj_eq, hbv, hbi_eq, hself, Nat.testBit_lor,
    testBit_mask_self (i % 8) (Nat.mod_lt i (by omega)), Bool.or_true] at hjbit
  exact Bool.noConfusion hjbit

/-- Witness for C5 at the concrete bitvector `[0x00]` and bit index 3:
after `cifsSetBit` the vector is `[0x10]`, and `cifsFindFreeBlock`
returns block 0, which differs from 3. -/
theorem c5_witness :
    cifsFindFreeBlock (cifsSetBit [0] 3) = some 0 ∧ (0 : Nat) ≠ 3 :=
  ⟨by decide, c5_setBit_findFreeBlock_ne [0] 3 0 (by decide) (by decide)
    (by decide)⟩

/-- C6. The claim states that no two live descriptors ever share an
identifier across create sequences, with the root always holding
identifier 0. The root part holds, but after creating and mounting the
file system two consecutive `cifsCreateFile` calls hand out the same
identifier: each call takes the in-memory counter (value 1 after the
mount) but then replaces the whole in-memory superblock with the
on-volume copy (cifs.c:353), which `cifsCreateFile` never updates, so
the post-increment of cifs.c:333 is discarded and the second call reuses
identifier 1. -/
theorem c6_createFile_duplicate_identifier :
    (cifsCreateFile_idStep (mountSBState createFS_sbState)).1 =
      (cifsCreateFile_idStep
        (cifsCreateFile_idStep (mountSBState createFS_sbState)).2).1 ∧
    (cifsCreateFile_idStep (mountSBState createFS_sbState)).1 ≠
      rootIdentifier ∧
    rootIdentifier = 0 := by
  refine ⟨rfl, ?_, rfl⟩
  intro h
  simp [cifsCreateFile_idStep, mountSBState, createFS_sbState,
    rootIdentifier] at h

/-- C7. The claim states that `cifsMountFileSystem` fills the registry
with one entry per descriptor of the volume via a pre-order traversal.
In the code both the traversal call site (cifs.c:253) and `traverseDisk`
itself (cifs.c:716-718) are empty TODO stubs, so for every volume the
mount produces no registry entry at all and `traverseDisk` leaves any
registry unchanged — in particular no entry exists even for the root
descriptor that every valid volume holds. -/
theorem c7_mount_populates_nothing :
    (∀ volume : Nat → List Nat,
      (cifsMountFileSystem volume).registryEntries = []) ∧
    (∀ index size path registry,
      traverseDisk index size path registry = registry) :=
  ⟨fun _ => rfl, fun _ _ _ _ => rfl⟩

/-- C8. The claim states that `cifsCreateFile` returns `CIFS_OPEN_ERROR`
when the target folder is not in the open-file list of the calling
process. The body of `cifsCreateFile` (cifs.c:327-355) never examines
`cifsContext->processList` and unconditionally returns `CIFS_NO_ERROR`,
here evaluated at an empty process list — where no folder is open for
any process — contradicting the documented `CIFS_OPEN_ERROR` behaviour
(cifs.c:303-304). -/
theorem c8_createFile_missing_open_check :
    cifsCreateFile_result [] = CIFS_ERROR.CIFS_NO_ERROR ∧
    CIFS_ERROR.CIFS_NO_ERROR ≠ CIFS_ERROR.CIFS_OPEN_ERROR :=
  ⟨rfl, by decide⟩

/-- C9. For every input string (list of bytes), `hash` returns a value
strictly below `CIFS_REGISTRY_SIZE = 65537`, so the result always is a
valid slot index of the fixed-size registry hash table. -/
theorem c9_hash_lt_registry_size (str : List Nat) :
    hash str < CIFS_REGISTRY_SIZE := by
  rw [hash]
  exact Nat.mod_lt _ (by decide)

/-- C10. For every bitvector and bit index, each of `cifsSetBit`,
`cifsClearBit` and `cifsFlipBit` writes only the byte at offset
`bitIndex / 8`: every byte at any other offset `k` is unchanged. -/
theorem c10_bit_ops_frame (bv : List Nat) (bitIndex k : Nat)
    (h : k ≠ bitIndex / 8) :
    (cifsSetBit bv bitIndex).getD k 0 = bv.getD k 0 ∧
    (cifsClearBit bv bitIndex).getD k 0 = bv.getD k 0 ∧
    (cifsFlipBit bv bitIndex).getD k 0 = bv.getD k 0 := by
  refine ⟨?_, ?_, ?_⟩ <;>
    simp only [cifsSetBit, cifsClearBit, cifsFlipBit] <;>
    exact getD_set_ne bv (bitIndex / 8) k _ h

/-- Witness for C10 at the concrete bitvector `[1, 2]`, bit index 0 and
byte offset 1: all three bit operations leave byte 1 unchanged. -/
theorem c10_witness :
    (cifsSetBit [1, 2] 0).getD 1 0 = List.getD [1, 2] 1 0 ∧
    (cifsClearBit [1, 2] 0).getD 1 0 = List.getD [1, 2] 1 0 ∧
    (cifsFlipBit [1, 2] 0).getD 1 0 = List.getD [1, 2] 1 0 :=
  c10_bit_ops_frame [1, 2] 0 1 (by decide)

end CIFS
